import Mathlib

/-!
Verification of the zen_pipeline repository-analysis engine
(`backend/app/services/code_reviewer.py`) against its specification.

The Python service is shallowly embedded: each Python function that a
claim depends on is translated into a Lean definition of the same name
(module-level helpers keep their `snake_case` names).  Python strings
are `String` or `List Char` (when character-level scanning is needed),
Python ints are `Int`/`Nat`, floats are `ℚ`, dictionaries are
association lists, and `None`-able values are `Option`.
-/

namespace ZenPipeline

/-! ### String helpers (Python `str` operations used by the service) -/

/-- Lower-case a character list, as Python `str.lower()` on ASCII text. -/
def lowerl (s : List Char) : List Char := s.map Char.toLower

/-- Python substring containment `pat in s`. -/
def containsSub (pat : List Char) : List Char → Bool
  | [] => pat.isPrefixOf []
  | c :: cs => pat.isPrefixOf (c :: cs) || containsSub pat cs

/-- Python `\s` / `str.strip()` whitespace on ASCII. -/
def pySpace (c : Char) : Bool :=
  c == ' ' || c == '\t' || c == '\n' || c == '\r' || c == '\x0b' || c == '\x0c'

/-- Python `str.strip()` on a character list. -/
def stripl (s : List Char) : List Char :=
  ((s.dropWhile pySpace).reverse.dropWhile pySpace).reverse

/-! ### Enumerations (`IssueSeverity`, `IssueCategory`) -/

inductive IssueSeverity where
  | critical | high | medium | low | info
deriving DecidableEq, BEq, Repr

def IssueSeverity.value : IssueSeverity → String
  | .critical => "critical"
  | .high => "high"
  | .medium => "medium"
  | .low => "low"
  | .info => "info"

inductive IssueCategory where
  | security | performance | code_quality | best_practices | maintainability
  | bug_risk | dependency | documentation | complexity | dead_code
deriving DecidableEq, BEq, Repr

def IssueCategory.value : IssueCategory → String
  | .security => "security"
  | .performance => "performance"
  | .code_quality => "code_quality"
  | .best_practices => "best_practices"
  | .maintainability => "maintainability"
  | .bug_risk => "bug_risk"
  | .dependency => "dependency"
  | .documentation => "documentation"
  | .complexity => "complexity"
  | .dead_code => "dead_code"

/-! ### Data model (`CodeIssue`, `FileAnalysis`, `FileReport`) -/

structure CodeIssue where
  file_path : String
  line_number : Nat
  category : IssueCategory
  severity : IssueSeverity
  title : String
  description : String
  suggestion : String
  code_snippet : String := ""
deriving DecidableEq, BEq, Repr

structure FuncInfo where
  name : String
  start_line : Nat
  end_line : Nat
  lines : Nat
  complexity : Nat
deriving DecidableEq, Repr

structure FileAnalysis where
  file_path : String
  language : String
  lines_of_code : Nat
  blank_lines : Nat
  comment_lines : Nat
  complexity_score : ℚ
  issues : List CodeIssue
  functions : List FuncInfo
  imports : List String
deriving DecidableEq, Repr

/-- Per-issue summary entry inside a `FileReport` (`analyze_repository`,
the dict comprehension building `FileReport.issues`). -/
structure FileIssueSummary where
  line : Nat
  severity : String
  title : String
deriving DecidableEq, Repr

structure FileReport where
  file_path : String
  language : String
  lines_of_code : Nat
  issues_count : Nat
  health_score : Int
  issues : List FileIssueSummary
deriving DecidableEq, Repr

/-- Construction of a `FileReport` from a `FileAnalysis`, as done inline in
`analyze_repository`: `file_health = max(0, 100 - len(analysis.issues) * 10)`
and `issues_count = len(analysis.issues)`. -/
def mkFileReport (a : FileAnalysis) : FileReport :=
  { file_path := a.file_path
    language := a.language
    lines_of_code := a.lines_of_code
    issues_count := a.issues.length
    health_score := max 0 (100 - (a.issues.length : Int) * 10)
    issues := a.issues.map (fun i => ⟨i.line_number, i.severity.value, i.title⟩) }

/-! ### Summary and scores (`analyze_repository` summary dict,
`_calculate_security_score`, `_calculate_quality_score`) -/

structure Summary where
  critical : Nat
  high : Nat
  medium : Nat
  low : Nat
  info : Nat
deriving DecidableEq, Repr

/-- The summary dict computed in `analyze_repository`:
one `sum(1 for i in all_issues if i.severity == ...)` per severity. -/
def buildSummary (all_issues : List CodeIssue) : Summary :=
  { critical := all_issues.countP (fun i => decide (i.severity = .critical))
    high := all_issues.countP (fun i => decide (i.severity = .high))
    medium := all_issues.countP (fun i => decide (i.severity = .medium))
    low := all_issues.countP (fun i => decide (i.severity = .low))
    info := all_issues.countP (fun i => decide (i.severity = .info)) }

/-- The serialized issue dict built from a `CodeIssue` in `analyze_repository`. -/
structure IssueDict where
  file_path : String
  line_number : Nat
  category : String
  severity : String
  title : String
  description : String
  suggestion : String
  code_snippet : String
deriving DecidableEq, Repr

def issueToDict (i : CodeIssue) : IssueDict :=
  ⟨i.file_path, i.line_number, i.category.value, i.severity.value,
   i.title, i.description, i.suggestion, i.code_snippet⟩

/-- `severity_order = {"critical": 0, ...}` with `.get(x, 5)` default. -/
def severity_order (s : String) : Nat :=
  if s = "critical" then 0
  else if s = "high" then 1
  else if s = "medium" then 2
  else if s = "low" then 3
  else if s = "info" then 4
  else 5

/-- `issues_list.sort(key=lambda x: severity_order.get(x["severity"], 5))`:
Python's stable sort, modelled by stable merge sort. -/
def sortIssues (l : List IssueDict) : List IssueDict :=
  l.mergeSort (fun a b => Nat.ble (severity_order a.severity) (severity_order b.severity))

/-- The final issue list of a `ReviewResult`: `all_issues` converted to
dicts, then severity-sorted. -/
def issuesList (all_issues : List CodeIssue) : List IssueDict :=
  sortIssues (all_issues.map issueToDict)

/-- `_calculate_security_score`. -/
def calculate_security_score (s : Summary) : Int :=
  let deductions : Int :=
    (s.critical : Int) * 25 + (s.high : Int) * 15 + (s.medium : Int) * 5 + (s.low : Int) * 1
  max 0 (100 - deductions)

/-- Python `int()` on a real value: truncation toward zero. -/
def pyTrunc (q : ℚ) : Int := if 0 ≤ q then ⌊q⌋ else ⌈q⌉

/-- `_calculate_quality_score`. -/
def calculate_quality_score (s : Summary) (total_lines : Nat) : Int :=
  let total_issues : ℚ := ((s.critical + s.high + s.medium + s.low + s.info : Nat) : ℚ)
  let issues_ratio : ℚ := total_issues / max ((total_lines : ℚ) / 100) 1
  max 0 (min 100 (pyTrunc (100 - issues_ratio * 10)))

/-! ### A miniature regular-expression engine

The per-line scanners call Python `re.search(pattern, line, re.IGNORECASE)`.
Every regex in the python security catalog lies in a small fragment:
sequences of (i) alternations of literal strings and (ii) character classes
with counted repetition.  `matchSeq` decides whether some prefix of the
input matches a sequence; `reSearch` tries every start position, which is
exactly the boolean outcome of `re.search`.  Case-insensitivity is
modelled by matching the lower-cased line against lower-cased literals
(all classes used are closed under case).  `.` may match any character
here because the scanned lines never contain a newline (they come from
`content.split("\n")`). -/

inductive RItem where
  | strs (ss : List (List Char))
  | cls (p : Char → Bool) (lo : Nat) (hi : Option Nat)

/-- Literal string item. -/
def rlit (s : String) : RItem := .strs [s.toList]

/-- Length of the longest run of characters satisfying `p`. -/
def runLen (p : Char → Bool) : List Char → Nat
  | [] => 0
  | c :: cs => if p c then runLen p cs + 1 else 0

/-- Does some prefix of the input match the sequence of items? -/
def matchSeq : List RItem → List Char → Bool
  | [], _ => true
  | .strs ss :: rest, input =>
      ss.any fun s => s.isPrefixOf input && matchSeq rest (input.drop s.length)
  | .cls p lo hi :: rest, input =>
      let maxk := match hi with
        | none => runLen p input
        | some h => min h (runLen p input)
      decide (lo ≤ maxk) &&
        (List.range (maxk + 1 - lo)).any fun j => matchSeq rest (input.drop (lo + j))

/-- `re.search`: does the pattern match starting at some position? -/
def reSearch (r : List RItem) : List Char → Bool
  | [] => matchSeq r []
  | c :: cs => matchSeq r (c :: cs) || reSearch r cs

/-- `\s*`. -/
def sp0 : RItem := .cls pySpace 0 none

/-- Single-quote character (written by code to keep apostrophes out of
the source text). -/
def squote : Char := Char.ofNat 39

/-- `['\"]`. -/
def quoteCls : RItem := .cls (fun c => c == squote || c == '"') 1 (some 1)

def notQuote (c : Char) : Bool := !(c == squote || c == '"')

def notRParen (c : Char) : Bool := c != ')'

def anyCh (_ : Char) : Bool := true

/-- `SECURITY_PATTERNS["python"]`: the ordered catalog of
(regex, title, suggestion, severity) entries, regexes transcribed into
`RItem` sequences with literals lower-cased (`re.IGNORECASE`). -/
def SECURITY_PATTERNS_python : List (List RItem × String × String × IssueSeverity) :=
  [ ([rlit "exec", sp0, rlit "("],
     "Dangerous exec() usage", "Avoid using exec() as it can execute arbitrary code", .critical)
  , ([rlit "eval", sp0, rlit "("],
     "Dangerous eval() usage", "Avoid using eval() as it can execute arbitrary code", .critical)
  , ([rlit "subprocess.call", sp0, rlit "(", .cls notRParen 0 none,
      rlit "shell", sp0, rlit "=", sp0, rlit "true"],
     "Shell injection risk", "Avoid shell=True in subprocess calls", .high)
  , ([rlit "os.system", sp0, rlit "("],
     "Command injection risk",
     "Use subprocess with proper argument handling instead of os.system", .high)
  , ([rlit "pickle.load", .cls (fun c => c == 's') 0 (some 1), sp0, rlit "("],
     "Insecure deserialization",
     "Pickle can execute arbitrary code during deserialization", .high)
  , ([rlit "password", sp0, rlit "=", sp0, quoteCls, .cls notQuote 3 none, quoteCls],
     "Hardcoded password", "Never hardcode passwords in source code", .critical)
  , ([rlit "api_key", sp0, rlit "=", sp0, quoteCls, .cls Char.isAlphanum 10 none, quoteCls],
     "Hardcoded API key", "Never hardcode API keys in source code", .critical)
  , ([rlit "secret", sp0, rlit "=", sp0, quoteCls, .cls notQuote 5 none, quoteCls],
     "Hardcoded secret", "Never hardcode secrets in source code", .high)
  , ([rlit "md5", sp0, rlit "("],
     "Weak hashing algorithm", "MD5 is cryptographically broken, use SHA-256 or better", .medium)
  , ([rlit "sha1", sp0, rlit "("],
     "Weak hashing algorithm", "SHA1 is deprecated for security purposes", .medium)
  , ([rlit ".format", sp0, rlit "(", .cls notRParen 0 none, rlit ")", .cls anyCh 0 none,
      .strs ["select".toList, "insert".toList, "update".toList, "delete".toList]],
     "Potential SQL injection", "Use parameterized queries instead of string formatting", .high)
  , ([rlit "verify", sp0, rlit "=", sp0, rlit "false"],
     "SSL verification disabled", "Never disable SSL verification in production", .high)
  , ([rlit "debug", sp0, rlit "=", sp0, rlit "true"],
     "Debug mode enabled", "Disable debug mode in production", .medium) ]

/-- The security-pattern phase of `analyze_file`: for each catalog entry
and each 1-based line matching its regex case-insensitively, one
security `CodeIssue` is appended (outer loop over patterns, inner loop
over `enumerate(lines, 1)`). -/
def scanSecurityPatterns (pats : List (List RItem × String × String × IssueSeverity))
    (language relative_path : String) (lines : List (List Char)) : List CodeIssue :=
  pats.flatMap fun entry =>
    (List.enumFrom 1 lines).filterMap fun il =>
      if reSearch entry.1 (lowerl il.2) then
        some { file_path := relative_path
               line_number := il.1
               category := .security
               severity := entry.2.2.2
               title := entry.2.1
               description := "Security issue in " ++ language ++ " code"
               suggestion := entry.2.2.1
               code_snippet := String.mk ((stripl il.2).take 100) }
      else none

/-! ### Path ignoring (`IGNORE_PATTERNS`, `should_ignore`) and the walk -/

def IGNORE_PATTERNS : List String :=
  ["node_modules", ".git", "__pycache__", ".venv", "venv",
   "dist", "build", ".next", "coverage", ".pytest_cache",
   ".mypy_cache", "*.min.js", "*.min.css", "package-lock.json",
   "yarn.lock", "poetry.lock", ".env", "*.map", "*.d.ts",
   ".idea", ".vscode", "target", "vendor"]

/-- `should_ignore`: lower-case the path; a pattern starting with `*`
matches by suffix, any other pattern by substring containment. -/
def should_ignore (path : List Char) : Bool :=
  let path_lower := lowerl path
  IGNORE_PATTERNS.any fun pattern =>
    if ['*'].isPrefixOf pattern.toList then
      (pattern.toList.drop 1).isSuffixOf path_lower
    else
      containsSub pattern.toList path_lower

/-- The per-file part of the `analyze_repository` walk: every relative
path with `should_ignore` is skipped (`continue`) before `analyze_file`
is called; `analyze_file` itself may return `None` (unmapped extension or
read failure), modelled by the `Option`-valued parameter. -/
def walkAnalyses (analyze_file : List Char → Option FileAnalysis)
    (relative_paths : List (List Char)) : List FileAnalysis :=
  relative_paths.filterMap fun p =>
    if should_ignore p then none else analyze_file p

/-! ### Dependency checker (`check_dependencies`) -/

/-- Issues for one merged package.json dependency entry. -/
def pkgEntryIssues (dep version : String) : List CodeIssue :=
  if ['*'].isPrefixOf version.toList || version == "latest" then
    [{ file_path := "package.json"
       line_number := 1
       category := .dependency
       severity := .high
       title := "Unpinned dependency: " ++ dep
       description := "Dependency uses " ++ String.mk [squote] ++ version ++ String.mk [squote]
       suggestion := "Pin to specific version"
       code_snippet := "\"" ++ dep ++ "\": \"" ++ version ++ "\"" }]
  else if ['^'].isPrefixOf version.toList || ['~'].isPrefixOf version.toList then
    if ['^', '0'].isPrefixOf version.toList then
      [{ file_path := "package.json"
         line_number := 1
         category := .dependency
         severity := .medium
         title := "Unstable dependency: " ++ dep
         description := "Version " ++ version ++ " is pre-1.0"
         suggestion := "Consider pinning exact version for stability"
         code_snippet := "\"" ++ dep ++ "\": \"" ++ version ++ "\"" }]
    else []
  else []

/-- Issue for one 1-based requirements.txt line: after stripping, a
non-empty non-comment line with none of `=`, `<`, `>` is unpinned. -/
def reqLineIssue (line_num : Nat) (raw : List Char) : Option CodeIssue :=
  let line := stripl raw
  if line ≠ [] ∧ ¬ ['#'].isPrefixOf line then
    if ¬ (line.any fun c => c == '=' || c == '<' || c == '>') then
      some { file_path := "requirements.txt"
             line_number := line_num
             category := .dependency
             severity := .medium
             title := String.mk ("Unpinned: ".toList ++ line)
             description := "No version specified"
             suggestion := "Pin to specific version"
             code_snippet := String.mk line }
    else none
  else none

/-- `check_dependencies`, over an abstract workspace: `pkg?` is the merged
`dependencies`/`devDependencies` mapping when a parseable package.json
exists (a swallowed parse failure or a missing file is `none`), and
`reqs?` is the raw line list of requirements.txt when readable. -/
def check_dependencies (pkg? : Option (List (String × String)))
    (reqs? : Option (List (List Char))) : List CodeIssue :=
  let pkg_issues := match pkg? with
    | none => []
    | some deps => deps.flatMap fun dv => pkgEntryIssues dv.1 dv.2
  let req_issues := match reqs? with
    | none => []
    | some ls => (List.enumFrom 1 ls).filterMap fun il => reqLineIssue il.1 il.2
  pkg_issues ++ req_issues

/-! ### README checker (`check_readme`) -/

/-- Heading regex `#.*<word>` (no DOTALL: `.` stays within one line). -/
def headingPat (word : String) : List RItem :=
  [rlit "#", .cls (fun c => c != '\n') 0 none, rlit word]

/-- `check_readme`, over the workspace root abstracted as a name→content
association list (first match wins, like the `os.path.exists` loop).
The unreadable-file branch is not modelled: in this embedding every
present file has contents. -/
def check_readme (files : List (String × List Char)) : Int × List String :=
  match (["README.md", "README.rst", "README.txt", "README"].filterMap
      fun n => files.lookup n).head? with
  | none => (0, ["No README file found"])
  | some content =>
    let issues0 : List String := []
    let p :=
      if content.length < 100 then
        (100 - 30, issues0 ++ ["README is too short (< 100 characters)"])
      else if content.length < 500 then
        (100 - 10, issues0 ++ ["README could be more detailed"])
      else (100, issues0)
    let lc := lowerl content
    let p :=
      if reSearch (headingPat "install") lc then p
      else (p.1 - 15, p.2 ++ ["Missing Installation section"])
    let p :=
      if reSearch (headingPat "usage") lc || reSearch (headingPat "getting started") lc then p
      else (p.1 - 15, p.2 ++ ["Missing Usage section"])
    let p :=
      if reSearch (headingPat "license") lc then p
      else (p.1 - 15, p.2 ++ ["Missing License section"])
    let p :=
      if containsSub "```".toList content then p
      else (p.1 - 10, p.2 ++ ["No code examples found"])
    (max 0 p.1, p.2)

/-! ### Recommendation generator (`_generate_recommendations`) -/

structure ComplexityMetrics where
  average_file_complexity : ℚ
  average_function_length : ℚ
  average_function_complexity : ℚ
  total_functions : Nat
  long_functions : Nat
  complex_functions : Nat
deriving DecidableEq, Repr

/-- Python `f"{x:.0f}"` on the coverage percentage. (Python rounds halves
to even on the underlying float; halves never matter to any claim.) -/
def fmtPct (q : ℚ) : String := toString (round q)

/-- `_generate_recommendations`: the ordered rule list, the positive
fallback when nothing fired, and truncation to 8. -/
def generate_recommendations (issues : List CodeIssue) (summary : Summary)
    (languages : List (String × Nat)) (test_coverage : ℚ)
    (readme_score : Int) (complexity_metrics : ComplexityMetrics) : List String :=
  let recommendations : List String := []
  let recommendations := if 0 < summary.critical then
      recommendations ++ ["🚨 URGENT: " ++ toString summary.critical ++
        " critical security issues need immediate attention"]
    else recommendations
  let recommendations := if 0 < summary.high then
      recommendations ++ ["⚠️ Address " ++ toString summary.high ++
        " high-severity issues before production deployment"]
    else recommendations
  let secret_issues := issues.filter fun i =>
    containsSub "hardcoded".toList (lowerl i.title.toList)
  let recommendations := if secret_issues ≠ [] then
      recommendations ++
        ["🔐 Move all hardcoded secrets to environment variables or a secrets manager"]
    else recommendations
  let recommendations := if test_coverage < 30 then
      recommendations ++ ["🧪 Test coverage is low (~" ++ fmtPct test_coverage ++
        "%). Add more unit tests"]
    else if test_coverage < 60 then
      recommendations ++ ["🧪 Consider increasing test coverage (currently ~" ++
        fmtPct test_coverage ++ "%)"]
    else recommendations
  let recommendations := if readme_score < 50 then
      recommendations ++
        ["📝 Improve README documentation with installation, usage, and examples"]
    else recommendations
  let recommendations := if 5 < complexity_metrics.complex_functions then
      recommendations ++ ["🔄 Refactor " ++ toString complexity_metrics.complex_functions ++
        " overly complex functions"]
    else recommendations
  let recommendations := if 5 < complexity_metrics.long_functions then
      recommendations ++ ["✂️ Break down " ++ toString complexity_metrics.long_functions ++
        " long functions into smaller units"]
    else recommendations
  let recommendations := if languages.any (fun kv => kv.1 == "python") then
      recommendations ++
        ["🐍 Add type hints, use black/ruff for formatting, and bandit for security scanning"]
    else recommendations
  let recommendations :=
    if languages.any (fun kv => kv.1 == "javascript") ||
        languages.any (fun kv => kv.1 == "typescript") then
      recommendations ++
        ["📦 Use ESLint with security plugins and ensure strict TypeScript settings"]
    else recommendations
  let recommendations := if recommendations = [] then
      recommendations ++ ["✅ Great job! The codebase looks healthy. Keep up the good work!"]
    else recommendations
  recommendations.take 8

/-! ### Result assembly (the tail of `analyze_repository`) -/

structure Metrics where
  security_score : Int
  quality_score : Int
  readme_score : Int
  readme_issues : List String
deriving Repr

/-- The fields of `ReviewResult` that the verified claims touch.  The
remaining source fields (timestamp, tech stack, hot files, display-rounded
floats) are independent of every claim and are not embedded. -/
structure ReviewResult where
  repository_url : String
  repository_name : String
  branch : String
  total_files : Nat
  total_lines : Nat
  languages : List (String × Nat)
  summary : Summary
  issues : List IssueDict
  metrics : Metrics
  recommendations : List String
  documentation_score : Int
  file_reports : List FileReport
deriving Repr

/-- The assembly tail of `analyze_repository`: summary, sorted issue list,
scores, recommendations, sorted-and-truncated file reports, and the
README-derived documentation score. -/
def assembleResult (github_url owner repo_name target_branch : String)
    (per_file_issues dep_issues : List CodeIssue)
    (file_reports : List FileReport) (languages : List (String × Nat))
    (test_coverage : ℚ) (readme : Int × List String)
    (complexity_metrics : ComplexityMetrics)
    (total_files total_lines : Nat) : ReviewResult :=
  let all_issues := per_file_issues ++ dep_issues
  let summary := buildSummary all_issues
  { repository_url := github_url
    repository_name := owner ++ "/" ++ repo_name
    branch := target_branch
    total_files := total_files
    total_lines := total_lines
    languages := languages
    summary := summary
    issues := issuesList all_issues
    metrics := { security_score := calculate_security_score summary
                 quality_score := calculate_quality_score summary total_lines
                 readme_score := readme.1
                 readme_issues := readme.2 }
    recommendations := generate_recommendations all_issues summary languages
      test_coverage readme.1 complexity_metrics
    documentation_score := readme.1
    file_reports := (file_reports.mergeSort
      (fun a b => Nat.ble b.issues_count a.issues_count)).take 50 }

/-! ### Branch selection (`parse_github_url` + `analyze_repository`) -/

/-- `re.search(r"/tree/([^/]+)", url)`: the first position where
`/tree/` is followed by at least one non-`/` character. -/
def urlTreeBranch : List Char → Option (List Char)
  | [] => none
  | c :: cs =>
      if "/tree/".toList.isPrefixOf (c :: cs) then
        let seg := ((c :: cs).drop 6).takeWhile fun ch => ch != '/'
        if seg = [] then urlTreeBranch cs else some seg
      else urlTreeBranch cs

/-- Python truthiness of an optional string: `None` and `""` are falsy. -/
def truthy : Option String → Bool
  | none => false
  | some s => decide (s.toList ≠ [])

/-- `target_branch = branch or url_branch or "main"`. -/
def target_branch (branch url_branch : Option String) : String :=
  if truthy branch then branch.getD ""
  else if truthy url_branch then url_branch.getD ""
  else "main"

/-- The second argument of `clone_repository`:
`target_branch if branch or url_branch else None`. -/
def cloneBranchArg (branch url_branch : Option String) : Option String :=
  if truthy branch || truthy url_branch then
    some (target_branch branch url_branch)
  else none

/-! ### Workspace lifecycle (`clone_repository` / `cleanup` / `finally`) -/

/-- Abstract service state: `self.temp_dir` plus the multiset of
directories existing on disk (an idealised filesystem: removal always
succeeds, so `ignore_errors=True` never has an error to swallow). -/
structure WorkspaceState where
  temp_dir : Option Nat
  dirs : List Nat
deriving DecidableEq, Repr

/-- `tempfile.mkdtemp` (start of `clone_repository`): create a fresh
directory and record it in `self.temp_dir`. -/
def mkdtemp (d : Nat) (s : WorkspaceState) : WorkspaceState :=
  { temp_dir := some d, dirs := d :: s.dirs }

/-- `shutil.rmtree(self.temp_dir, ignore_errors=True)`. -/
def rmtree (d : Nat) (s : WorkspaceState) : WorkspaceState :=
  { s with dirs := s.dirs.filter fun x => decide (x ≠ d) }

/-- `CodeReviewService.cleanup`: remove the directory iff `temp_dir` is
set and the directory exists. -/
def cleanup (s : WorkspaceState) : WorkspaceState :=
  match s.temp_dir with
  | some d => if d ∈ s.dirs then rmtree d s else s
  | none => s

/-- The control-flow skeleton of `analyze_repository` with respect to the
workspace: URL parsing may raise before any directory is created;
`clone_repository` creates the temporary directory and may then raise;
the walk/aggregation may raise; the `finally:` block runs `cleanup` on
every path.  `Except` models raised exceptions; each `_ok` flag selects
whether the corresponding phase raises. -/
def analyze_repository_workspace (parse_ok clone_ok body_ok : Bool) (d : Nat)
    (s0 : WorkspaceState) : Except String Unit × WorkspaceState :=
  if !parse_ok then (.error "Invalid GitHub URL", cleanup s0)
  else
    let s1 := mkdtemp d s0
    if !clone_ok then (.error "Failed to clone repository", cleanup s1)
    else if !body_ok then (.error "analysis failed", cleanup s1)
    else (.ok (), cleanup s1)

/-! ### Helper lemmas -/

/-- Every issue has exactly one of the five severities, so the five
severity counts partition the list. -/
theorem countP_severities (l : List CodeIssue) :
    l.countP (fun i => decide (i.severity = .critical)) +
    l.countP (fun i => decide (i.severity = .high)) +
    l.countP (fun i => decide (i.severity = .medium)) +
    l.countP (fun i => decide (i.severity = .low)) +
    l.countP (fun i => decide (i.severity = .info)) = l.length := by
  induction l with
  | nil => simp
  | cons x xs ih =>
    obtain ⟨fp, ln, cat, sev, t, d, su, cs⟩ := x
    cases sev <;> simp [List.countP_cons] <;> omega

theorem matchSeq_lit (s t : List Char) (rest : List RItem)
    (h : matchSeq rest t = true) :
    matchSeq (RItem.strs [s] :: rest) (s ++ t) = true := by
  simp [matchSeq, List.isPrefixOf_iff_prefix, List.drop_left, h]

theorem matchSeq_cls0 (p : Char → Bool) (rest : List RItem) (input : List Char)
    (h : matchSeq rest input = true) :
    matchSeq (RItem.cls p 0 none :: rest) input = true := by
  simp only [matchSeq]
  refine (Bool.and_eq_true _ _).mpr ⟨by simp, ?_⟩
  refine List.any_eq_true.mpr ⟨0, List.mem_range.mpr (by omega), ?_⟩
  simpa using h

theorem reSearch_of_matchSeq (r : List RItem) (s : List Char)
    (h : matchSeq r s = true) : reSearch r s = true := by
  cases s with
  | nil => simpa [reSearch] using h
  | cons c cs => simp [reSearch, h]

theorem reSearch_append_left (r : List RItem) (a s : List Char)
    (h : matchSeq r s = true) : reSearch r (a ++ s) = true := by
  induction a with
  | nil => simpa using reSearch_of_matchSeq r s h
  | cons c cs ih => simp [reSearch, ih]

/-- The `os.system` catalog regex matches any text containing the literal
call prefix. -/
theorem reSearch_osSystem (a b : List Char) :
    reSearch [rlit "os.system", sp0, rlit "("] (a ++ "os.system(".toList ++ b) = true := by
  have hsplit : "os.system(".toList = "os.system".toList ++ ['('] := by decide
  have h1 : matchSeq [rlit "("] (['('] ++ b) = true := matchSeq_lit ['('] b [] rfl
  have h2 : matchSeq [sp0, rlit "("] (['('] ++ b) = true := matchSeq_cls0 pySpace _ _ h1
  have h3 : matchSeq [rlit "os.system", sp0, rlit "("]
      ("os.system".toList ++ (['('] ++ b)) = true :=
    matchSeq_lit "os.system".toList (['('] ++ b) [sp0, rlit "("] h2
  have h4 : "os.system(".toList ++ b = "os.system".toList ++ (['('] ++ b) := by
    rw [hsplit, List.append_assoc]
  rw [List.append_assoc, h4]
  exact reSearch_append_left _ a _ h3

/-- C7: every Python file whose line N contains a call of the form
`os.system(...)` yields, from the per-file security scan, a high-severity
security issue located at line N titled "Command injection risk". -/
theorem os_system_line_flagged (relative_path : String) (lines : List (List Char))
    (n : Nat) (line a b : List Char)
    (hn : 1 ≤ n)
    (hline : lines[n - 1]? = some line)
    (hsub : line = a ++ "os.system(".toList ++ b) :
    ∃ i ∈ scanSecurityPatterns SECURITY_PATTERNS_python "python" relative_path lines,
      i.line_number = n ∧ i.category = .security ∧ i.severity = .high ∧
      i.title = "Command injection risk" := by
  have hlow : lowerl "os.system(".toList = "os.system(".toList := by decide
  have hmatch : reSearch [rlit "os.system", sp0, rlit "("] (lowerl line) = true := by
    rw [hsub]
    simp only [lowerl, List.map_append]
    rw [show List.map Char.toLower "os.system(".toList = "os.system(".toList from hlow]
    exact reSearch_osSystem (List.map Char.toLower a) (List.map Char.toLower b)
  have hmem_enum : (n, line) ∈ List.enumFrom 1 lines := by
    have h1 : (1 + (n - 1), line) ∈ List.enumFrom 1 lines :=
      List.mk_add_mem_enumFrom_iff_getElem?.mpr hline
    have h2 : 1 + (n - 1) = n := by omega
    rwa [h2] at h1
  refine ⟨{ file_path := relative_path
            line_number := n
            category := .security
            severity := .high
            title := "Command injection risk"
            description := "Security issue in python code"
            suggestion := "Use subprocess with proper argument handling instead of os.system"
            code_snippet := String.mk ((stripl line).take 100) },
    List.mem_flatMap.mpr
    ⟨([rlit "os.system", sp0, rlit "("],
      "Command injection risk",
      "Use subprocess with proper argument handling instead of os.system",
      IssueSeverity.high), ?_,
      List.mem_filterMap.mpr ⟨(n, line), hmem_enum, ?_⟩⟩, rfl, rfl, rfl, rfl⟩
  · simp [SECURITY_PATTERNS_python]
  · simp only [scanSecurityPatterns, hmatch, if_true]
    rfl

/-- Witness for C7: the spec scenario, a ten-line Python file with
`os.system("rm -rf " + user_input)` on line 10. -/
theorem os_system_line_flagged_witness :
    ∃ i ∈ scanSecurityPatterns SECURITY_PATTERNS_python "python" "app.py"
        ["import os".toList, [], [], [], [], [], [], [], [],
         "os.system(\"rm -rf \" + user_input)".toList],
      i.line_number = 10 ∧ i.category = .security ∧ i.severity = .high ∧
      i.title = "Command injection risk" :=
  os_system_line_flagged "app.py"
    ["import os".toList, [], [], [], [], [], [], [], [],
     "os.system(\"rm -rf \" + user_input)".toList]
    10 "os.system(\"rm -rf \" + user_input)".toList []
    "\"rm -rf \" + user_input)".toList
    (by norm_num) rfl (by decide)

/-- C1: for every completed analysis, the sum of the summary map over the
five severities equals the length of the final issue list, where the final
list is exactly the per-file issues plus the dependency issues (converted
to dicts and severity-sorted). -/
theorem summary_total_eq_issue_count (github_url owner repo_name target_branch : String)
    (per_file_issues dep_issues : List CodeIssue) (file_reports : List FileReport)
    (languages : List (String × Nat)) (test_coverage : ℚ)
    (readme : Int × List String) (cm : ComplexityMetrics)
    (total_files total_lines : Nat) :
    (assembleResult github_url owner repo_name target_branch per_file_issues
        dep_issues file_reports languages test_coverage readme cm
        total_files total_lines).summary.critical +
    (assembleResult github_url owner repo_name target_branch per_file_issues
        dep_issues file_reports languages test_coverage readme cm
        total_files total_lines).summary.high +
    (assembleResult github_url owner repo_name target_branch per_file_issues
        dep_issues file_reports languages test_coverage readme cm
        total_files total_lines).summary.medium +
    (assembleResult github_url owner repo_name target_branch per_file_issues
        dep_issues file_reports languages test_coverage readme cm
        total_files total_lines).summary.low +
    (assembleResult github_url owner repo_name target_branch per_file_issues
        dep_issues file_reports languages test_coverage readme cm
        total_files total_lines).summary.info =
      (assembleResult github_url owner repo_name target_branch per_file_issues
        dep_issues file_reports languages test_coverage readme cm
        total_files total_lines).issues.length := by
  have h := countP_severities (per_file_issues ++ dep_issues)
  simp only [assembleResult]
  simpa [issuesList, sortIssues, buildSummary, List.length_mergeSort] using h

/-- C2: the security score equals
max(0, 100 − 25·critical − 15·high − 5·medium − 1·low), and both the
security score and the quality score lie in [0, 100] for all issue
volumes. -/
theorem scores_formula_and_bounds (s : Summary) (total_lines : Nat) :
    calculate_security_score s =
      max 0 (100 - 25 * (s.critical : Int) - 15 * (s.high : Int)
        - 5 * (s.medium : Int) - 1 * (s.low : Int)) ∧
    0 ≤ calculate_security_score s ∧ calculate_security_score s ≤ 100 ∧
    0 ≤ calculate_quality_score s total_lines ∧
    calculate_quality_score s total_lines ≤ 100 := by
  refine ⟨?_, ?_, ?_, ?_, ?_⟩
  · simp only [calculate_security_score]
    omega
  · exact le_max_left 0 _
  · simp only [calculate_security_score]
    omega
  · exact le_max_left 0 _
  · unfold calculate_quality_score
    exact max_le (by norm_num) (min_le_left _ _)

/-- C3: every FileReport built by `analyze_repository` has
health_score = max(0, 100 − 10·issues_count), hence health_score ∈ [0, 100]. -/
theorem file_report_health_score (a : FileAnalysis) :
    (mkFileReport a).health_score =
      max 0 (100 - 10 * ((mkFileReport a).issues_count : Int)) ∧
    0 ≤ (mkFileReport a).health_score ∧ (mkFileReport a).health_score ≤ 100 := by
  refine ⟨?_, le_max_left 0 _, ?_⟩
  · simp only [mkFileReport]
    omega
  · simp only [mkFileReport]
    omega

theorem take8_fallback (l : List String) (f : String) :
    ((if l = [] then l ++ [f] else l).take 8) ≠ [] ∧
    ((if l = [] then l ++ [f] else l).take 8).length ≤ 8 := by
  constructor
  · rcases eq_or_ne l [] with h | h
    · simp [h]
    · simp [h, List.take_eq_nil_iff]
  · exact List.length_take_le 8 _

/-- C6: for every completed analysis, the recommendations list is never
empty and has length at most 8: entries are collected in fixed
rule-evaluation order, a single positive fallback is appended when no
rule fired, and the list is truncated to 8. -/
theorem recommendations_nonempty_le8 (issues : List CodeIssue) (summary : Summary)
    (languages : List (String × Nat)) (test_coverage : ℚ)
    (readme_score : Int) (cm : ComplexityMetrics) :
    generate_recommendations issues summary languages test_coverage readme_score cm ≠ [] ∧
    (generate_recommendations issues summary languages test_coverage
        readme_score cm).length ≤ 8 :=
  take8_fallback _ _

/-- C10 (amended): path ignoring is substring-based and case-insensitive:
any path whose lower-cased text contains a non-wildcard ignore pattern
anywhere is ignored, and an ignored path is skipped by the walk entirely
(it contributes no `FileAnalysis`, so it is never scanned, counted or
reported). -/
theorem ignore_pattern_substring_excludes (path : List Char) (pattern : String)
    (af : List Char → Option FileAnalysis) (pre post : List (List Char))
    (hpat : pattern ∈ IGNORE_PATTERNS)
    (hstar : ['*'].isPrefixOf pattern.toList = false)
    (hsub : containsSub pattern.toList (lowerl path) = true) :
    should_ignore path = true ∧
    walkAnalyses af (pre ++ path :: post) = walkAnalyses af (pre ++ post) := by
  have h1 : should_ignore path = true := by
    unfold should_ignore
    refine List.any_eq_true.mpr ⟨pattern, hpat, ?_⟩
    rw [hstar]
    simpa using hsub
  refine ⟨h1, ?_⟩
  have h2 : (fun p => if should_ignore p then none else af p) path = none := by
    simp [h1]
  simp only [walkAnalyses, List.filterMap_append]
  rw [@List.filterMap_cons_none _ _
    (fun p => if should_ignore p then none else af p) path post h2]

/-- Witness for C10: `builder.py` contains the ignore token `build`, so it
is ignored and dropped from the walk. -/
theorem ignore_pattern_substring_excludes_witness :
    should_ignore "builder.py".toList = true ∧
    walkAnalyses (fun p => some ⟨String.mk p, "python", 1, 0, 0, 0, [], [], []⟩)
        (["app.py".toList] ++ "builder.py".toList :: []) =
      walkAnalyses (fun p => some ⟨String.mk p, "python", 1, 0, 0, 0, [], [], []⟩)
        (["app.py".toList] ++ []) :=
  ignore_pattern_substring_excludes "builder.py".toList "build"
    (fun p => some ⟨String.mk p, "python", 1, 0, 0, 0, [], [], []⟩)
    ["app.py".toList] [] (by decide) (by decide) (by decide)

/-- Counterexample for C10 as stated: the claim's example `preventive.py`
does not contain "venv" (nor any other ignore token) as a substring, is
not ignored, and is analyzed by the walk. -/
theorem preventive_py_not_ignored :
    containsSub "venv".toList (lowerl "preventive.py".toList) = false ∧
    should_ignore "preventive.py".toList = false ∧
    walkAnalyses (fun p => some ⟨String.mk p, "python", 1, 0, 0, 0, [], [], []⟩)
        ["preventive.py".toList] =
      [⟨"preventive.py", "python", 1, 0, 0, 0, [], [], []⟩] := by
  decide

/-- C4 (amended): package.json entries whose version starts with `*` or is
`latest` yield a high-severity dependency issue naming the dependency;
caret pre-1.0 ranges yield a medium-severity issue; requirements.txt
lines with no version specifier yield a medium-severity (not high)
dependency issue naming the stripped line. -/
theorem dependency_pinning_issues (pkg? : Option (List (String × String)))
    (reqs? : Option (List (List Char))) :
    (∀ deps dep version, pkg? = some deps → (dep, version) ∈ deps →
      (['*'].isPrefixOf version.toList = true ∨ version = "latest") →
      ∃ i ∈ check_dependencies pkg? reqs?,
        i.file_path = "package.json" ∧ i.category = .dependency ∧
        i.severity = .high ∧ i.title = "Unpinned dependency: " ++ dep) ∧
    (∀ deps dep version, pkg? = some deps → (dep, version) ∈ deps →
      ['^', '0'].isPrefixOf version.toList = true →
      ∃ i ∈ check_dependencies pkg? reqs?,
        i.file_path = "package.json" ∧ i.category = .dependency ∧
        i.severity = .medium ∧ i.title = "Unstable dependency: " ++ dep) ∧
    (∀ ls n raw, reqs? = some ls → 1 ≤ n → ls[n - 1]? = some raw →
      stripl raw ≠ [] → ['#'].isPrefixOf (stripl raw) = false →
      ((stripl raw).any fun c => c == '=' || c == '<' || c == '>') = false →
      ∃ i ∈ check_dependencies pkg? reqs?,
        i.file_path = "requirements.txt" ∧ i.category = .dependency ∧
        i.severity = .medium ∧ i.line_number = n ∧
        i.title = String.mk ("Unpinned: ".toList ++ stripl raw)) := by
  refine ⟨?_, ?_, ?_⟩
  · rintro deps dep version rfl hmem hv
    have hcond : (['*'].isPrefixOf version.toList || version == "latest") = true := by
      rcases hv with h | h
      · rw [h]
        rfl
      · rw [h]
        decide
    refine ⟨{ file_path := "package.json"
              line_number := 1
              category := .dependency
              severity := .high
              title := "Unpinned dependency: " ++ dep
              description := "Dependency uses " ++ String.mk [squote] ++ version ++
                String.mk [squote]
              suggestion := "Pin to specific version"
              code_snippet := "\"" ++ dep ++ "\": \"" ++ version ++ "\"" },
      ?_, rfl, rfl, rfl, rfl⟩
    unfold check_dependencies
    apply List.mem_append_left
    refine List.mem_flatMap.mpr ⟨(dep, version), hmem, ?_⟩
    unfold pkgEntryIssues
    rw [hcond]
    simp
  · rintro deps dep version rfl hmem hcaret
    obtain ⟨t, ht⟩ := List.isPrefixOf_iff_prefix.mp hcaret
    have hstar : ['*'].isPrefixOf version.toList = false := by
      rw [← ht]
      simp [List.isPrefixOf]
    have hlatest : (version == "latest") = false := by
      cases h : version == "latest" with
      | false => rfl
      | true =>
        exfalso
        have hv : version = "latest" := eq_of_beq h
        rw [hv] at ht
        have ht' : ('^' :: '0' :: t : List Char) = ['l', 'a', 't', 'e', 's', 't'] := ht
        injection ht' with h1 _
        exact absurd h1 (by decide)
    have hcaret1 : ['^'].isPrefixOf version.toList = true := by
      rw [← ht]
      simp [List.isPrefixOf]
    refine ⟨{ file_path := "package.json"
              line_number := 1
              category := .dependency
              severity := .medium
              title := "Unstable dependency: " ++ dep
              description := "Version " ++ version ++ " is pre-1.0"
              suggestion := "Consider pinning exact version for stability"
              code_snippet := "\"" ++ dep ++ "\": \"" ++ version ++ "\"" },
      ?_, rfl, rfl, rfl, rfl⟩
    have hcond1 : (['*'].isPrefixOf version.toList || version == "latest") = false := by
      rw [hstar, hlatest]
      rfl
    have hcond2 : (['^'].isPrefixOf version.toList ||
        ['~'].isPrefixOf version.toList) = true := by
      rw [hcaret1]
      rfl
    unfold check_dependencies
    apply List.mem_append_left
    refine List.mem_flatMap.mpr ⟨(dep, version), hmem, ?_⟩
    unfold pkgEntryIssues
    rw [hcond1, hcond2, hcaret]
    simp
  · rintro ls n raw rfl hn hraw hne hhash hspec
    have hmem_enum : (n, raw) ∈ List.enumFrom 1 ls := by
      have h1 : (1 + (n - 1), raw) ∈ List.enumFrom 1 ls :=
        List.mk_add_mem_enumFrom_iff_getElem?.mpr hraw
      have h2 : 1 + (n - 1) = n := by omega
      rwa [h2] at h1
    have hissue : reqLineIssue n raw =
        some { file_path := "requirements.txt"
               line_number := n
               category := .dependency
               severity := .medium
               title := String.mk ("Unpinned: ".toList ++ stripl raw)
               description := "No version specified"
               suggestion := "Pin to specific version"
               code_snippet := String.mk (stripl raw) } := by
      unfold reqLineIssue
      rw [if_pos ⟨hne, by simp [hhash]⟩, if_pos (by simp [hspec])]
    refine ⟨{ file_path := "requirements.txt"
              line_number := n
              category := .dependency
              severity := .medium
              title := String.mk ("Unpinned: ".toList ++ stripl raw)
              description := "No version specified"
              suggestion := "Pin to specific version"
              code_snippet := String.mk (stripl raw) },
      ?_, rfl, rfl, rfl, rfl, rfl⟩
    unfold check_dependencies
    apply List.mem_append_right
    exact List.mem_filterMap.mpr ⟨(n, raw), hmem_enum, hissue⟩

/-- Counterexample for C4 as stated: the checker flags the unpinned
requirements.txt line `requests` with exactly one issue, of medium — not
high — severity. -/
theorem unpinned_requirement_is_medium :
    (check_dependencies none (some ["requests".toList])).length = 1 ∧
    (check_dependencies none (some ["requests".toList])).all
      (fun i => decide (i.severity = IssueSeverity.medium)) = true ∧
    (check_dependencies none (some ["requests".toList])).all
      (fun i => decide (i.severity ≠ IssueSeverity.high)) = true := by
  decide

/-- Witness for C4: `"lodash": "*"` yields the high-severity issue (the
spec scenario), `"leftpad": "^0.5.0"` the medium pre-1.0 issue, and the
requirements line `requests` the medium unpinned issue. -/
theorem dependency_pinning_issues_witness :
    (∃ i ∈ check_dependencies (some [("lodash", "*"), ("leftpad", "^0.5.0")])
        (some ["requests".toList]),
      i.file_path = "package.json" ∧ i.category = .dependency ∧
      i.severity = .high ∧ i.title = "Unpinned dependency: " ++ "lodash") ∧
    (∃ i ∈ check_dependencies (some [("lodash", "*"), ("leftpad", "^0.5.0")])
        (some ["requests".toList]),
      i.file_path = "package.json" ∧ i.category = .dependency ∧
      i.severity = .medium ∧ i.title = "Unstable dependency: " ++ "leftpad") ∧
    (∃ i ∈ check_dependencies (some [("lodash", "*"), ("leftpad", "^0.5.0")])
        (some ["requests".toList]),
      i.file_path = "requirements.txt" ∧ i.category = .dependency ∧
      i.severity = .medium ∧ i.line_number = 1 ∧
      i.title = String.mk ("Unpinned: ".toList ++ stripl "requests".toList)) :=
  ⟨(dependency_pinning_issues _ _).1 _ "lodash" "*" rfl (by decide)
      (Or.inl (by decide)),
   (dependency_pinning_issues _ _).2.1 _ "leftpad" "^0.5.0" rfl (by decide)
      (by decide),
   (dependency_pinning_issues _ _).2.2 _ 1 "requests".toList rfl (by decide)
      (by decide) (by decide) (by decide) (by decide)⟩

/-- C8: a repository whose root contains none of README.md, README.rst,
README.txt, README yields readme score 0 with the "No README file found"
issue, so the assembled result has documentation_score = 0 and carries
that entry in its readme issue list. -/
theorem no_readme_zero_score (files : List (String × List Char))
    (github_url owner repo_name target_branch : String)
    (per_file_issues dep_issues : List CodeIssue) (file_reports : List FileReport)
    (languages : List (String × Nat)) (test_coverage : ℚ)
    (cm : ComplexityMetrics) (total_files total_lines : Nat)
    (h1 : files.lookup "README.md" = none) (h2 : files.lookup "README.rst" = none)
    (h3 : files.lookup "README.txt" = none) (h4 : files.lookup "README" = none) :
    check_readme files = (0, ["No README file found"]) ∧
    (assembleResult github_url owner repo_name target_branch per_file_issues
      dep_issues file_reports languages test_coverage (check_readme files)
      cm total_files total_lines).documentation_score = 0 ∧
    "No README file found" ∈ (assembleResult github_url owner repo_name
      target_branch per_file_issues dep_issues file_reports languages
      test_coverage (check_readme files) cm total_files
      total_lines).metrics.readme_issues := by
  have hcr : check_readme files = (0, ["No README file found"]) := by
    have hh : (["README.md", "README.rst", "README.txt", "README"].filterMap
        fun n => files.lookup n) = [] := by
      simp [List.filterMap_cons, h1, h2, h3, h4]
    unfold check_readme
    rw [hh]
    rfl
  refine ⟨hcr, ?_, ?_⟩ <;> simp [assembleResult, hcr]

/-- Witness for C8: a root listing with only `main.py`. -/
theorem no_readme_zero_score_witness :
    check_readme [("main.py", "import os".toList)] = (0, ["No README file found"]) ∧
    (assembleResult "u" "o" "r" "main" [] [] [] [] 60
      (check_readme [("main.py", "import os".toList)])
      ⟨0, 0, 0, 0, 0, 0⟩ 1 1).documentation_score = 0 ∧
    "No README file found" ∈ (assembleResult "u" "o" "r" "main" [] [] [] [] 60
      (check_readme [("main.py", "import os".toList)])
      ⟨0, 0, 0, 0, 0, 0⟩ 1 1).metrics.readme_issues :=
  no_readme_zero_score [("main.py", "import os".toList)] "u" "o" "r" "main"
    [] [] [] [] 60 ⟨0, 0, 0, 0, 0, 0⟩ 1 1
    (by decide) (by decide) (by decide) (by decide)

theorem urlTreeBranch_eq_none (url : List Char)
    (h : containsSub "/tree/".toList url = false) : urlTreeBranch url = none := by
  induction url with
  | nil => rfl
  | cons c cs ih =>
    rw [containsSub, Bool.or_eq_false_iff] at h
    obtain ⟨h1, h2⟩ := h
    unfold urlTreeBranch
    rw [h1]
    simpa using ih h2

/-- C9: when the caller passes no branch and the URL has no `/tree/`
segment, no URL branch is extracted, the clone branch argument is `None`
(so git clones the repository default branch), and yet the branch value
assigned to the result (`target_branch`, stored verbatim in
`ReviewResult.branch`) is the literal "main". -/
theorem default_branch_reported_as_main (url : List Char)
    (h : containsSub "/tree/".toList url = false) :
    urlTreeBranch url = none ∧
    cloneBranchArg none ((urlTreeBranch url).map String.mk) = none ∧
    target_branch none ((urlTreeBranch url).map String.mk) = "main" ∧
    (assembleResult "u" "o" "r"
      (target_branch none ((urlTreeBranch url).map String.mk))
      [] [] [] [] 60 (0, []) ⟨0, 0, 0, 0, 0, 0⟩ 0 0).branch = "main" := by
  have h0 : urlTreeBranch url = none := urlTreeBranch_eq_none url h
  rw [h0]
  refine ⟨rfl, rfl, rfl, rfl⟩

/-- Witness for C9 at a plain repository URL. -/
theorem default_branch_reported_as_main_witness :
    urlTreeBranch "https://github.com/psf/requests".toList = none ∧
    cloneBranchArg none
      ((urlTreeBranch "https://github.com/psf/requests".toList).map String.mk) = none ∧
    target_branch none
      ((urlTreeBranch "https://github.com/psf/requests".toList).map String.mk) = "main" ∧
    (assembleResult "u" "o" "r"
      (target_branch none
        ((urlTreeBranch "https://github.com/psf/requests".toList).map String.mk))
      [] [] [] [] 60 (0, []) ⟨0, 0, 0, 0, 0, 0⟩ 0 0).branch = "main" :=
  default_branch_reported_as_main "https://github.com/psf/requests".toList (by decide)

theorem cleanup_not_mem (s : WorkspaceState) (d : Nat) (h : d ∉ s.dirs) :
    d ∉ (cleanup s).dirs := by
  unfold cleanup
  cases hs : s.temp_dir with
  | none => exact h
  | some e =>
    by_cases he : e ∈ s.dirs
    · simp only [he, if_true, rmtree]
      intro hmem
      exact h (List.mem_of_mem_filter hmem)
    · simpa [he] using h

theorem cleanup_removes (s : WorkspaceState) (d : Nat) (h : s.temp_dir = some d) :
    d ∉ (cleanup s).dirs := by
  unfold cleanup
  rw [h]
  by_cases hd : d ∈ s.dirs
  · simp [hd, rmtree, List.mem_filter]
  · simp [hd]

/-- C5: the workspace is released on every exit path of
`analyze_repository` — parse failure, clone failure, body failure or
success — and after `cleanup` runs on a state whose `temp_dir` is set,
that directory no longer exists in the (idealised) filesystem. -/
theorem workspace_always_released (parse_ok clone_ok body_ok : Bool) (d : Nat)
    (s0 s : WorkspaceState) (hfresh : d ∉ s0.dirs) (hs : s.temp_dir = some d) :
    d ∉ (analyze_repository_workspace parse_ok clone_ok body_ok d s0).2.dirs ∧
    d ∉ (cleanup s).dirs := by
  refine ⟨?_, cleanup_removes s d hs⟩
  unfold analyze_repository_workspace
  cases parse_ok with
  | false => simpa using cleanup_not_mem s0 d hfresh
  | true =>
    cases clone_ok with
    | false => simpa using cleanup_removes (mkdtemp d s0) d rfl
    | true =>
      cases body_ok with
      | false => simpa using cleanup_removes (mkdtemp d s0) d rfl
      | true => simpa using cleanup_removes (mkdtemp d s0) d rfl

/-- Witness for C5: a failing clone on a fresh directory name 7. -/
theorem workspace_always_released_witness :
    7 ∉ (analyze_repository_workspace true false true 7 ⟨none, [3]⟩).2.dirs ∧
    7 ∉ (cleanup ⟨some 7, [7, 3]⟩).dirs :=
  workspace_always_released true false true 7 ⟨none, [3]⟩ ⟨some 7, [7, 3]⟩
    (by decide) rfl

end ZenPipeline
